import Mathlib

/-! # FayeCpp WebSocket transport (`src/websocketqt.cpp`)

A shallow embedding of `FayeCpp::WebSocketQt`.  Every member function is a
function on an explicit transport state; each call the C++ code makes on the
event sink (`Transport::onConnected`, ...) or on the owned `QWebSocket`
(`_socket->open`, ...) is appended, in program order, to the `trace` of that
state.  `FAYECPP_DEBUG_MESSAGES` blocks only write to `qDebug()` and are left
out.
-/

namespace FayeCpp

/-! ## Bytes, C strings and Qt strings -/

/-- Contents of a `QByteArray` (one `Nat` per byte). -/
abbrev QByteArray := List Nat

/-- A well-formed `QString`, as its sequence of Unicode scalar values. -/
abbrev QString := List Char

/-- Memory a `const char *` / `const unsigned char *` argument points to. -/
abbrev CharPtr := List Nat

/-- UTF-8 encoding of one scalar value, as done by `QString::toUtf8`. -/
def utf8EncodeChar (c : Char) : List Nat :=
  let v := c.toNat
  if v ≤ 0x7f then [v]
  else if v ≤ 0x7ff then [0xc0 + v / 64, 0x80 + v % 64]
  else if v ≤ 0xffff then [0xe0 + v / 4096, 0x80 + (v / 64) % 64, 0x80 + v % 64]
  else [0xf0 + v / 262144, 0x80 + (v / 4096) % 64, 0x80 + (v / 64) % 64, 0x80 + v % 64]

/-- Model of `QString::toUtf8()`. -/
def toUtf8 (s : QString) : QByteArray :=
  match s with
  | [] => []
  | c :: cs => utf8EncodeChar c ++ toUtf8 cs

/-- Model of `QString::isEmpty()`. -/
def QString.isEmpty (s : QString) : Bool := s.length == 0

/-- Model of `QByteArray::size()`, an `int`. -/
def QByteArray.size (b : QByteArray) : Int := b.length

/-- Model of `QByteArray::data()`: the bytes followed by the terminating
NUL that Qt keeps after every byte array. -/
def QByteArray.data (b : QByteArray) : CharPtr := b ++ [0]

/-- Text denoted by a `const char *` that is passed without a length: the
bytes before the first NUL. -/
def cstr (p : CharPtr) : List Nat := p.takeWhile (fun b => b != 0)

/-- A C string literal in memory: its UTF-8 bytes and the terminator. -/
def cLiteral (s : String) : CharPtr := toUtf8 s.toList ++ [0]

/-- The cast `(REUInt32)` applied to an `int`. -/
def toREUInt32 (i : Int) : Nat := (i % 2 ^ 32).toNat

/-- The cast `(int)` applied to a `REUInt32`. -/
def toInt (n : Nat) : Int :=
  if n % 2 ^ 32 < 2 ^ 31 then (n % 2 ^ 32 : Nat) else (n % 2 ^ 32 : Nat) - 2 ^ 32

/-- Modelled from the spec: `REString`, the internal NUL-terminated UTF-8
string form (its class is declared in `fayecpp.h`, which is not part of the
sources at hand).  The value is the UTF-8 content, terminator excluded. -/
abbrev REString := List Nat

/-- Modelled from the spec: `REString(const char *)`, conversion of a C string
to the internal string form; it keeps the bytes before the first NUL. -/
def REString.ofCStr (p : CharPtr) : REString := cstr p

/-- Modelled from the spec: `REString::isNotEmpty()`. -/
def REString.isNotEmpty (s : REString) : Bool := s.length != 0

/-- Modelled from the spec: `REString::UTF8String()`, the content as a
NUL-terminated C string. -/
def REString.UTF8String (s : REString) : CharPtr := s ++ [0]

/-! ## The owned connection, the credential source and the transport -/

/-- The five signals of `QWebSocket` that the transport wires to its slots. -/
inductive Signal where
  | connected
  | disconnected
  | textMessageReceived
  | binaryMessageReceived
  | error
  deriving DecidableEq, Repr

/-- Algorithm argument of the `QSslKey` constructor. -/
inductive KeyAlgorithm where
  | Rsa
  | Dsa
  deriving DecidableEq, Repr

/-- Encoding argument of the `QSslKey` constructor. -/
inductive EncodingFormat where
  | Pem
  | Der
  deriving DecidableEq, Repr

/-- Key type argument of the `QSslKey` constructor. -/
inductive KeyType where
  | PrivateKey
  | PublicKey
  deriving DecidableEq, Repr

/-- Fields of `QSslConfiguration` that the transport touches.  `Cert` and
`Key` are the non-null values of `QSslCertificate` and `QSslKey`. -/
structure QSslConfiguration (Cert Key : Type) where
  localCertificate : Option Cert
  privateKey : Option Key
  caCertificates : List Cert
  deriving DecidableEq, Repr

/-- Qt primitives used by the transport whose code lives outside the
repository. -/
structure Qt (Cert Key : Type) where
  /-- Decoding done by `QString(const char *)` on the C string content. -/
  fromUtf8 : List Nat → QString
  /-- Result of `QFile(path).open(QIODevice::ReadOnly)` followed by
  `readAll()`; `none` when `open` returns false. -/
  readFile : QString → Option QByteArray
  /-- Result of `QSslCertificate(bytes)`; `none` when `isNull()`. -/
  newCertificate : QByteArray → Option Cert
  /-- Result of `QSslKey(bytes, algorithm, format, type, passPhrase)`; `none`
  when `isNull()`. -/
  newKey : QByteArray → KeyAlgorithm → EncodingFormat → KeyType → QByteArray → Option Key
  /-- CA list of a default-constructed `QSslConfiguration`. -/
  defaultCaCertificates : List Cert

/-- One call made by the transport, on the event sink, on its own base class
or on `_socket`. -/
inductive Action (Cert Key : Type) where
  | onConnected
  | onDisconnected
  | onTextReceived (text : CharPtr)
  | onDataReceived (data : CharPtr) (dataSize : Nat)
  | onError (message : REString)
  | updateLastSendTime
  | connect (signal : Signal)
  | disconnect (signal : Signal)
  | sendBinaryMessage (message : QByteArray)
  | sendTextMessage (message : QString)
  | setSslConfiguration (config : QSslConfiguration Cert Key)
  | open_ (url : QString)
  | close
  | delete
  deriving DecidableEq, Repr

/-- Calls that reach the event sink. -/
def Action.isSinkCall {Cert Key : Type} : Action Cert Key → Bool
  | .onConnected => true
  | .onDisconnected => true
  | .onTextReceived _ => true
  | .onDataReceived _ _ => true
  | .onError _ => true
  | _ => false

/-- State of the owned `QWebSocket` that the transport reads or changes. -/
structure QWebSocket (Cert Key : Type) where
  errorString : QString
  sslConfiguration : QSslConfiguration Cert Key
  connections : List Signal
  deriving DecidableEq, Repr

/-- Modelled from the spec: the TLS credential source (`SSLDataSource`,
declared in `fayecpp.h`), with its three file paths and the passphrase. -/
structure SSLDataSource where
  clientLocalCertificateFilePath : REString
  clientPrivateKeyFilePath : REString
  clientPrivateKeyPassPhrase : REString
  clientCACertificateFilePath : REString
  deriving DecidableEq, Repr

/-- State of a `WebSocketQt`: the attributes of its `Transport` base that it
uses, the owned socket, and the calls made so far (oldest first). -/
structure WebSocketQt (Cert Key : Type) where
  url : REString
  sslDataSource : Option SSLDataSource
  lastSendTime : Nat
  socket : QWebSocket Cert Key
  trace : List (Action Cert Key)
  deriving DecidableEq, Repr

variable {Cert Key : Type}

/-- Records one call in program order. -/
def WebSocketQt.call (t : WebSocketQt Cert Key) (a : Action Cert Key) : WebSocketQt Cert Key :=
  { t with trace := t.trace ++ [a] }

/-- Modelled from the spec: `Transport::updateLastSendTime()`, which stores the
current clock reading `now` as the last-send timestamp. -/
def WebSocketQt.updateLastSendTime (t : WebSocketQt Cert Key) (now : Nat) : WebSocketQt Cert Key :=
  { t.call Action.updateLastSendTime with lastSendTime := now }

/-! ## Slots: event bridging -/

/-- Slot `WebSocketQt::connected()`. -/
def WebSocketQt.connected (t : WebSocketQt Cert Key) : WebSocketQt Cert Key :=
  t.call Action.onConnected

/-- Slot `WebSocketQt::disconnected()`. -/
def WebSocketQt.disconnected (t : WebSocketQt Cert Key) : WebSocketQt Cert Key :=
  t.call Action.onDisconnected

/-- Slot `WebSocketQt::textMessageReceived(const QString &)`. -/
def WebSocketQt.textMessageReceived (t : WebSocketQt Cert Key) (message : QString) :
    WebSocketQt Cert Key :=
  let bytes := toUtf8 message
  if bytes.size > 0 then
    t.call (Action.onTextReceived bytes.data)
  else t

/-- Slot `WebSocketQt::binaryMessageReceived(const QByteArray &)`. -/
def WebSocketQt.binaryMessageReceived (t : WebSocketQt Cert Key) (message : QByteArray) :
    WebSocketQt Cert Key :=
  if message.size > 0 then
    t.call (Action.onDataReceived message.data (toREUInt32 message.size))
  else t

/-- Slot `WebSocketQt::error(QAbstractSocket::SocketError)`. -/
def WebSocketQt.error (t : WebSocketQt Cert Key) (_error : Int) : WebSocketQt Cert Key :=
  let err := t.socket.errorString
  if err.isEmpty then
    t.call (Action.onError (REString.ofCStr (cLiteral "TODO: unprocessed qt socket error")))
  else
    t.call (Action.onError (REString.ofCStr (toUtf8 err).data))

/-! ## Outbound sends -/

/-- Model of `QByteArray(const char * data, int size)`: a null `data` gives an
empty array, a negative `size` makes Qt measure `data` as a C string. -/
def QByteArray.ofRaw (data : Option CharPtr) (size : Int) : QByteArray :=
  match data with
  | none => []
  | some mem => if size < 0 then cstr mem else mem.take size.toNat

/-- Model of `QString(const char *)`: a null pointer and the empty C string
give the empty string, any other content is decoded from UTF-8. -/
def QString.ofCStr (qt : Qt Cert Key) (str : Option CharPtr) : QString :=
  match str with
  | none => []
  | some mem => if (cstr mem).length == 0 then [] else qt.fromUtf8 (cstr mem)

/-- Member `WebSocketQt::sendData(const unsigned char *, const REUInt32)`;
`now` is the clock reading taken by `updateLastSendTime`. -/
def WebSocketQt.sendData (t : WebSocketQt Cert Key) (now : Nat) (data : Option CharPtr)
    (dataSize : Nat) : WebSocketQt Cert Key :=
  let t := t.updateLastSendTime now
  t.call (Action.sendBinaryMessage (QByteArray.ofRaw data (toInt dataSize)))

/-- Member `WebSocketQt::sendText(const char *, const REUInt32)`; `textSize`
is unused, as in the source. -/
def WebSocketQt.sendText (qt : Qt Cert Key) (t : WebSocketQt Cert Key) (now : Nat)
    (text : Option CharPtr) (_textSize : Nat) : WebSocketQt Cert Key :=
  let t := t.updateLastSendTime now
  t.call (Action.sendTextMessage (QString.ofCStr qt text))

/-! ## TLS configuration and connection lifecycle -/

/-- Static member `WebSocketQt::toString(const REString &)`. -/
def WebSocketQt.toString (qt : Qt Cert Key) (s : REString) : QString :=
  if s.isNotEmpty then QString.ofCStr qt (some s.UTF8String) else []

/-- A default-constructed `QSslConfiguration`. -/
def QSslConfiguration.default (qt : Qt Cert Key) : QSslConfiguration Cert Key :=
  { localCertificate := none, privateKey := none, caCertificates := qt.defaultCaCertificates }

/-- Effect of `_socket->setSslConfiguration(config)`: the call is recorded and
the socket configuration becomes `config`. -/
def WebSocketQt.setSslConfiguration (t : WebSocketQt Cert Key)
    (config : QSslConfiguration Cert Key) : WebSocketQt Cert Key :=
  { t.call (Action.setSslConfiguration config) with
    socket := { t.socket with sslConfiguration := config } }

/-- The `QSslConfiguration config` that `setupSocketWithSSLDataSource` has
assembled when it reaches `_socket->setSslConfiguration(config)`. -/
def assembleConfig (qt : Qt Cert Key) (dataSource : SSLDataSource) : QSslConfiguration Cert Key :=
  let config := QSslConfiguration.default qt
  let config :=
    match qt.readFile (WebSocketQt.toString qt dataSource.clientLocalCertificateFilePath) with
    | some bytes =>
      match qt.newCertificate bytes with
      | none => config
      | some cert => { config with localCertificate := some cert }
    | none => config
  let config :=
    match qt.readFile (WebSocketQt.toString qt dataSource.clientPrivateKeyFilePath) with
    | some bytes =>
      let pp : QByteArray := [] ++ toUtf8 (WebSocketQt.toString qt dataSource.clientPrivateKeyPassPhrase)
      match qt.newKey bytes KeyAlgorithm.Rsa EncodingFormat.Pem KeyType.PrivateKey pp with
      | none => config
      | some key => { config with privateKey := some key }
    | none => config
  let config :=
    match qt.readFile (WebSocketQt.toString qt dataSource.clientCACertificateFilePath) with
    | some bytes =>
      match qt.newCertificate bytes with
      | none => config
      | some cert =>
        let caList := config.caCertificates
        let caList := caList ++ [cert]
        { config with caCertificates := caList }
    | none => config
  config

/-- Member `WebSocketQt::setupSocketWithSSLDataSource(SSLDataSource *)`. -/
def WebSocketQt.setupSocketWithSSLDataSource (qt : Qt Cert Key) (t : WebSocketQt Cert Key)
    (dataSource : SSLDataSource) : WebSocketQt Cert Key :=
  t.setSslConfiguration (assembleConfig qt dataSource)

/-- Member `WebSocketQt::connectToServer()`; the `QUrl` handed to `open` is
represented by the string it is built from. -/
def WebSocketQt.connectToServer (qt : Qt Cert Key) (t : WebSocketQt Cert Key) :
    WebSocketQt Cert Key :=
  let t :=
    match t.sslDataSource with
    | some dataSource => t.setupSocketWithSSLDataSource qt dataSource
    | none => t
  t.call (Action.open_ (QString.ofCStr qt (some t.url.UTF8String)))

/-- Member `WebSocketQt::disconnectFromServer()`. -/
def WebSocketQt.disconnectFromServer (t : WebSocketQt Cert Key) : WebSocketQt Cert Key :=
  t.call Action.close

/-- Static member `WebSocketQt::transportName()`. -/
def WebSocketQt.transportName : REString := REString.ofCStr (cLiteral "websocket")

/-- Member `WebSocketQt::name()`. -/
def WebSocketQt.name (_t : WebSocketQt Cert Key) : REString := WebSocketQt.transportName

/-- Effect of `connect(_socket, SIGNAL(s), this, SLOT(s))`. -/
def WebSocketQt.connectSignal (t : WebSocketQt Cert Key) (s : Signal) : WebSocketQt Cert Key :=
  { t.call (Action.connect s) with
    socket := { t.socket with connections := t.socket.connections ++ [s] } }

/-- Effect of `disconnect(_socket, SIGNAL(s), this, SLOT(s))`: every
connection of that signal to its slot is removed. -/
def WebSocketQt.disconnectSignal (t : WebSocketQt Cert Key) (s : Signal) : WebSocketQt Cert Key :=
  { t.call (Action.disconnect s) with
    socket := { t.socket with connections := t.socket.connections.filter (fun c => c != s) } }

/-- Constructor `WebSocketQt::WebSocketQt(processMethod)`.  The first three
arguments are the attributes left by the `Transport(processMethod)` base
constructor, `config` is the configuration of the freshly created
`QWebSocket`. -/
def WebSocketQt.new (url : REString) (sslDataSource : Option SSLDataSource) (lastSendTime : Nat)
    (config : QSslConfiguration Cert Key) : WebSocketQt Cert Key :=
  let t : WebSocketQt Cert Key :=
    { url := url, sslDataSource := sslDataSource, lastSendTime := lastSendTime,
      socket := { errorString := [], sslConfiguration := config, connections := [] },
      trace := [] }
  let t := t.connectSignal Signal.connected
  let t := t.connectSignal Signal.disconnected
  let t := t.connectSignal Signal.textMessageReceived
  let t := t.connectSignal Signal.binaryMessageReceived
  let t := t.connectSignal Signal.error
  t

/-- First part of the destructor: the five `disconnect` calls. -/
def WebSocketQt.disconnectSignals (t : WebSocketQt Cert Key) : WebSocketQt Cert Key :=
  let t := t.disconnectSignal Signal.connected
  let t := t.disconnectSignal Signal.disconnected
  let t := t.disconnectSignal Signal.textMessageReceived
  let t := t.disconnectSignal Signal.binaryMessageReceived
  let t := t.disconnectSignal Signal.error
  t

/-- Destructor `WebSocketQt::~WebSocketQt()`. -/
def WebSocketQt.destructor (t : WebSocketQt Cert Key) : WebSocketQt Cert Key :=
  let t := t.disconnectSignals
  let t := t.call Action.close
  t.call Action.delete

/-! ## Signal delivery by the underlying connection -/

/-- An event raised by the underlying connection. -/
inductive SocketEvent where
  | connected
  | disconnected
  | textMessageReceived (message : QString)
  | binaryMessageReceived (message : QByteArray)
  | error (code : Int)
  deriving DecidableEq, Repr

/-- Signal through which an event is raised. -/
def SocketEvent.signal : SocketEvent → Signal
  | .connected => Signal.connected
  | .disconnected => Signal.disconnected
  | .textMessageReceived _ => Signal.textMessageReceived
  | .binaryMessageReceived _ => Signal.binaryMessageReceived
  | .error _ => Signal.error

/-- Slot that the constructor wires to the signal of an event. -/
def WebSocketQt.slot (t : WebSocketQt Cert Key) : SocketEvent → WebSocketQt Cert Key
  | .connected => t.connected
  | .disconnected => t.disconnected
  | .textMessageReceived message => t.textMessageReceived message
  | .binaryMessageReceived message => t.binaryMessageReceived message
  | .error code => t.error code

/-- Emission of a signal by `_socket` (Qt direct connection): the slot runs
once for every connection of that signal that exists when it is emitted. -/
def WebSocketQt.emit (t : WebSocketQt Cert Key) (e : SocketEvent) : WebSocketQt Cert Key :=
  (t.socket.connections.filter (fun c => c == e.signal)).foldl (fun t _ => t.slot e) t

/-- Emission of a sequence of signals, oldest first. -/
def WebSocketQt.emitAll (t : WebSocketQt Cert Key) (es : List SocketEvent) : WebSocketQt Cert Key :=
  es.foldl WebSocketQt.emit t

/-- An underlying lifecycle callback. -/
inductive Lifecycle where
  | connected
  | disconnected
  deriving DecidableEq, Repr

/-- Runs the slot of one lifecycle callback, raised while the error string of
the underlying connection is `errorString`. -/
def WebSocketQt.lifecycle (t : WebSocketQt Cert Key) (c : Lifecycle × QString) :
    WebSocketQt Cert Key :=
  let t := { t with socket := { t.socket with errorString := c.2 } }
  match c.1 with
  | Lifecycle.connected => t.connected
  | Lifecycle.disconnected => t.disconnected

/-- Sink call that corresponds to a lifecycle callback. -/
def Lifecycle.sinkCall : Lifecycle → Action Cert Key
  | .connected => Action.onConnected
  | .disconnected => Action.onDisconnected

/-- What the spec asks of a certificate item: the certificate parsed from the
file at `path`, when the file opens and the certificate is not null. -/
def loadCertificate (qt : Qt Cert Key) (path : REString) : Option Cert :=
  (qt.readFile (WebSocketQt.toString qt path)).bind qt.newCertificate

/-- What the spec asks of the private-key item: the key parsed as RSA/PEM
with `passPhrase` from the file at `path`, when the file opens and the key is
not null. -/
def loadPrivateKey (qt : Qt Cert Key) (path passPhrase : REString) : Option Key :=
  (qt.readFile (WebSocketQt.toString qt path)).bind (fun bytes =>
    qt.newKey bytes KeyAlgorithm.Rsa EncodingFormat.Pem KeyType.PrivateKey
      (toUtf8 (WebSocketQt.toString qt passPhrase)))

/-- The fixed text that `WebSocketQt::error` reports when the underlying
connection has no error string. -/
def errorPlaceholder : REString :=
  REString.ofCStr (cLiteral "TODO: unprocessed qt socket error")

/-- Test for a character other than U+0000. -/
def notNul (c : Char) : Bool := c.toNat != 0

/-! ## Concrete instances used to evaluate the model -/

/-- A Qt environment in which certificates and keys are numbers: the files
`a`, `b` and `k` exist, a certificate is the first byte of its file, a key is
the first byte of its file plus the passphrase length. -/
def qtSample : Qt Nat Nat :=
  { fromUtf8 := fun bs => bs.map Char.ofNat,
    readFile := fun path =>
      if path = [Char.ofNat 97] then some [1]
      else if path = [Char.ofNat 98] then some [2]
      else if path = [Char.ofNat 107] then some [3]
      else none,
    newCertificate := fun bytes => bytes.head?,
    newKey := fun bytes _ _ _ pp => bytes.head?.map (fun b => b + pp.length),
    defaultCaCertificates := [] }

/-- A transport without credential source whose socket reports `err`. -/
def sampleTransport (err : QString) : WebSocketQt Nat Nat :=
  { url := [119, 115], sslDataSource := none, lastSendTime := 5,
    socket := { errorString := err,
                sslConfiguration := { localCertificate := none, privateKey := none,
                                      caCertificates := [] },
                connections := [] },
    trace := [] }

/-- A credential source naming the CA file `ca` and nothing else. -/
def sampleSource (ca : Nat) : SSLDataSource :=
  { clientLocalCertificateFilePath := [], clientPrivateKeyFilePath := [],
    clientPrivateKeyPassPhrase := [], clientCACertificateFilePath := [ca] }

/-! ## Facts about the string conversions -/

theorem utf8EncodeChar_nul (c : Char) (h : c.toNat = 0) : utf8EncodeChar c = [0] := by
  simp [utf8EncodeChar, h]

theorem utf8EncodeChar_pos (c : Char) (h : c.toNat ≠ 0) :
    ∀ b ∈ utf8EncodeChar c, (b != 0) = true := by
  intro b hb
  unfold utf8EncodeChar at hb
  simp only [bne_iff_ne, ne_eq]
  simp only at hb
  split_ifs at hb <;> simp at hb <;> omega

theorem utf8EncodeChar_ne_nil (c : Char) : utf8EncodeChar c ≠ [] := by
  unfold utf8EncodeChar
  simp only
  split_ifs <;> simp

theorem toUtf8_eq_nil (s : QString) : toUtf8 s = [] ↔ s = [] := by
  cases s with
  | nil => simp [toUtf8]
  | cons c cs => simp [toUtf8, utf8EncodeChar_ne_nil]

theorem cstr_data_toUtf8 (s : QString) :
    cstr (toUtf8 s).data = toUtf8 (s.takeWhile notNul) := by
  induction s with
  | nil => simp [toUtf8, cstr, QByteArray.data]
  | cons c cs ih =>
    by_cases h : c.toNat = 0
    · simp [toUtf8, cstr, QByteArray.data, utf8EncodeChar_nul c h, notNul, h]
    · have hpos := utf8EncodeChar_pos c h
      have hc : (c.toNat != 0) = true := by simpa using h
      simp only [cstr, QByteArray.data] at ih
      have hrhs : List.takeWhile notNul (c :: cs) = c :: List.takeWhile notNul cs := by
        simp [List.takeWhile_cons, notNul, h]
      rw [hrhs]
      simp only [toUtf8, cstr, QByteArray.data, List.append_assoc,
        List.takeWhile_append_of_pos hpos, ih]

theorem cstr_no_nul (p : CharPtr) : 0 ∉ cstr p := by
  intro h
  have := List.mem_takeWhile_imp h
  simp at this

theorem toUtf8_nul_mem (s : QString) (c : Char) (hc : c ∈ s) (h : c.toNat = 0) :
    0 ∈ toUtf8 s := by
  induction s with
  | nil => simp at hc
  | cons d ds ih =>
    rcases List.mem_cons.mp hc with rfl | hmem
    · simp [toUtf8, utf8EncodeChar_nul c h]
    · simp [toUtf8, ih hmem]

theorem toUtf8_takeWhile_eq_self (s : QString) :
    toUtf8 (s.takeWhile notNul) = toUtf8 s ↔ s.all notNul = true := by
  constructor
  · intro h
    by_contra hall
    simp only [List.all_eq_true, not_forall] at hall
    obtain ⟨c, hc, hnul⟩ := hall
    have hz : c.toNat = 0 := by simpa [notNul] using hnul
    have hmem := toUtf8_nul_mem s c hc hz
    rw [← h, ← cstr_data_toUtf8] at hmem
    exact cstr_no_nul _ hmem
  · intro h
    have : s.takeWhile notNul = s := List.takeWhile_eq_self_iff.mpr (by simpa using h)
    rw [this]

theorem toUtf8_takeWhile_eq_nil (s : QString) :
    toUtf8 (s.takeWhile notNul) = [] ↔ (s = [] ∨ s.head?.map Char.toNat = some 0) := by
  rw [toUtf8_eq_nil]
  cases s with
  | nil => simp
  | cons c cs =>
    by_cases h : c.toNat = 0
    · simp [List.takeWhile_cons, notNul, h]
    · simp [List.takeWhile_cons, notNul, h]

theorem errorPlaceholder_ne_nil : errorPlaceholder ≠ [] := by
  have h : errorPlaceholder
      = toUtf8 ("TODO: unprocessed qt socket error".toList.takeWhile notNul) := by
    unfold errorPlaceholder REString.ofCStr cLiteral
    exact cstr_data_toUtf8 _
  rw [h, Ne, toUtf8_takeWhile_eq_nil]
  decide

/-! ## Inbound event bridging -/

/-- C1, as stated, fails: with the non-empty error string consisting of the
single character U+0000 the slot `error` hands the sink an empty message. -/
theorem error_empty_message_counterexample :
    (sampleTransport [Char.ofNat 0]).socket.errorString ≠ []
      ∧ ((sampleTransport [Char.ofNat 0]).error 7).trace = [Action.onError []] := by
  constructor
  · decide
  · simp [WebSocketQt.error, WebSocketQt.call, sampleTransport, QString.isEmpty,
      REString.ofCStr, cstr, QByteArray.data, toUtf8, utf8EncodeChar]

/-- C1 (amended): for every error code and every error string of the
underlying connection, `error` makes exactly one call, `onError`, whose
message is the non-empty placeholder when the error string is empty and
otherwise the UTF-8 encoding of the error string up to its first U+0000.
That message is the whole error string exactly when the string contains no
U+0000, it is empty exactly when the string begins with U+0000, and the
resulting state is the same for every error code. -/
theorem error_onError_once (t : WebSocketQt Cert Key) (code : Int) :
    (t.error code).trace
        = t.trace ++ [Action.onError
            (if t.socket.errorString = [] then errorPlaceholder
             else toUtf8 (t.socket.errorString.takeWhile notNul))]
      ∧ errorPlaceholder ≠ []
      ∧ (toUtf8 (t.socket.errorString.takeWhile notNul) = toUtf8 t.socket.errorString
          ↔ t.socket.errorString.all notNul = true)
      ∧ ((if t.socket.errorString = [] then errorPlaceholder
            else toUtf8 (t.socket.errorString.takeWhile notNul)) = []
          ↔ t.socket.errorString.head?.map Char.toNat = some 0)
      ∧ t.error code = t.error 0 := by
  refine ⟨?_, errorPlaceholder_ne_nil, toUtf8_takeWhile_eq_self _, ?_, rfl⟩
  · unfold WebSocketQt.error
    by_cases h : t.socket.errorString = []
    · simp [h, QString.isEmpty, WebSocketQt.call, errorPlaceholder]
    · have hlen : t.socket.errorString.length ≠ 0 := by simpa using h
      simp [h, QString.isEmpty, WebSocketQt.call, REString.ofCStr, cstr_data_toUtf8]
  · by_cases h : t.socket.errorString = []
    · simp [h, errorPlaceholder_ne_nil]
    · simp [h, toUtf8_takeWhile_eq_nil]

/-- C2: a binary message of length 0 produces no call; a longer one (its
length fits the `int` of `QByteArray::size`) produces exactly one call,
`onDataReceived`, whose length argument is the exact byte length and whose
pointer addresses exactly the bytes of the message. -/
theorem binaryMessageReceived_forwards (t : WebSocketQt Cert Key) (message : QByteArray)
    (hsize : message.length < 2 ^ 32) :
    (t.binaryMessageReceived message).trace
        = (if message.length = 0 then t.trace
           else t.trace ++ [Action.onDataReceived message.data message.length])
      ∧ message.data.take message.length = message := by
  constructor
  · unfold WebSocketQt.binaryMessageReceived
    by_cases h : message.length = 0
    · have : message = [] := List.length_eq_zero.mp h
      simp [this, QByteArray.size]
    · have hpos : (0 : Int) < (message.length : Int) := by omega
      have hcast : toREUInt32 (message.length : Int) = message.length := by
        unfold toREUInt32
        have : ((message.length : Int) % 2 ^ 32) = (message.length : Int) :=
          Int.emod_eq_of_lt (by omega) (by exact_mod_cast hsize)
        rw [this]
        simp
      simp [h, QByteArray.size, hpos, hcast, WebSocketQt.call]
  · simp [QByteArray.data]

/-- Witness for C2 on the two-byte message `[1, 0]`. -/
theorem binaryMessageReceived_forwards_witness :
    ((sampleTransport []).binaryMessageReceived [1, 0]).trace
        = (if [1, 0].length = 0 then (sampleTransport []).trace
           else (sampleTransport []).trace
             ++ [Action.onDataReceived (QByteArray.data [1, 0]) [1, 0].length])
      ∧ (QByteArray.data [1, 0]).take [1, 0].length = [1, 0] :=
  binaryMessageReceived_forwards (sampleTransport []) [1, 0] (by decide)

/-- C3, as stated, fails: for the message `a`, U+0000, `b` the sink is handed
a C string whose content is the single byte of `a`, not the three bytes of the
UTF-8 encoding of the message. -/
theorem textMessageReceived_truncates_counterexample :
    ((sampleTransport []).textMessageReceived [Char.ofNat 97, Char.ofNat 0, Char.ofNat 98]).trace
        = [Action.onTextReceived [97, 0, 98, 0]]
      ∧ cstr [97, 0, 98, 0] = [97]
      ∧ toUtf8 [Char.ofNat 97, Char.ofNat 0, Char.ofNat 98] = [97, 0, 98]
      ∧ cstr [97, 0, 98, 0] ≠ toUtf8 [Char.ofNat 97, Char.ofNat 0, Char.ofNat 98] := by
  have h : toUtf8 [Char.ofNat 97, Char.ofNat 0, Char.ofNat 98] = [97, 0, 98] := by
    simp [toUtf8, utf8EncodeChar]
  refine ⟨?_, by decide, h, ?_⟩
  · simp [WebSocketQt.textMessageReceived, h, QByteArray.size, QByteArray.data,
      WebSocketQt.call, sampleTransport]
  · rw [h]
    decide

/-- C3 (amended): every non-empty text message produces exactly one call,
`onTextReceived`, on the NUL-terminated UTF-8 encoding of the message; the
text the sink is handed is the encoding of the message up to its first
U+0000, and it is the encoding of the whole message exactly when the message
contains no U+0000. -/
theorem textMessageReceived_forwards (t : WebSocketQt Cert Key) (message : QString)
    (hne : message ≠ []) :
    (t.textMessageReceived message).trace
        = t.trace ++ [Action.onTextReceived (toUtf8 message).data]
      ∧ cstr (toUtf8 message).data = toUtf8 (message.takeWhile notNul)
      ∧ (cstr (toUtf8 message).data = toUtf8 message ↔ message.all notNul = true) := by
  refine ⟨?_, cstr_data_toUtf8 message, ?_⟩
  · have hb : toUtf8 message ≠ [] := fun h => hne ((toUtf8_eq_nil message).mp h)
    have hlen : (0 : Int) < ((toUtf8 message).length : Int) := by
      have := List.length_pos.mpr hb
      omega
    simp [WebSocketQt.textMessageReceived, QByteArray.size, hlen, WebSocketQt.call]
  · rw [cstr_data_toUtf8]
    exact toUtf8_takeWhile_eq_self message

/-- Witness for C3 on the message `hi`. -/
theorem textMessageReceived_forwards_witness :
    ((sampleTransport []).textMessageReceived [Char.ofNat 104, Char.ofNat 105]).trace
        = (sampleTransport []).trace
            ++ [Action.onTextReceived (toUtf8 [Char.ofNat 104, Char.ofNat 105]).data]
      ∧ cstr (toUtf8 [Char.ofNat 104, Char.ofNat 105]).data
          = toUtf8 ([Char.ofNat 104, Char.ofNat 105].takeWhile notNul)
      ∧ (cstr (toUtf8 [Char.ofNat 104, Char.ofNat 105]).data
            = toUtf8 [Char.ofNat 104, Char.ofNat 105]
          ↔ [Char.ofNat 104, Char.ofNat 105].all notNul = true) :=
  textMessageReceived_forwards (sampleTransport []) [Char.ofNat 104, Char.ofNat 105] (by decide)

/-- C4, as stated, fails: for the message U+0000, `a` the string the sink
receives has zero length, and `onTextReceived` is called all the same. -/
theorem textMessageReceived_empty_text_counterexample :
    ((sampleTransport []).textMessageReceived [Char.ofNat 0, Char.ofNat 97]).trace
        = [Action.onTextReceived [0, 97, 0]]
      ∧ (cstr [0, 97, 0]).length = 0 := by
  have h : toUtf8 [Char.ofNat 0, Char.ofNat 97] = [0, 97] := by
    simp [toUtf8, utf8EncodeChar]
  refine ⟨?_, by decide⟩
  simp [WebSocketQt.textMessageReceived, h, QByteArray.size, QByteArray.data,
    WebSocketQt.call, sampleTransport]

/-- C4 (amended): `textMessageReceived` makes no call exactly when the UTF-8
encoding of the message has zero bytes, that is when the message is empty; a
non-empty message is forwarded by exactly one `onTextReceived`, and the text
that call carries has zero length exactly when the message begins with
U+0000. -/
theorem textMessageReceived_drops_empty (t : WebSocketQt Cert Key) (message : QString) :
    (t.textMessageReceived message).trace
        = (if message = [] then t.trace
           else t.trace ++ [Action.onTextReceived (toUtf8 message).data])
      ∧ ((toUtf8 message).length = 0 ↔ message = [])
      ∧ (cstr (toUtf8 message).data = []
          ↔ (message = [] ∨ message.head?.map Char.toNat = some 0)) := by
  refine ⟨?_, ?_, ?_⟩
  · by_cases hne : message = []
    · simp [hne, WebSocketQt.textMessageReceived, toUtf8, QByteArray.size]
    · have hb : toUtf8 message ≠ [] := fun h => hne ((toUtf8_eq_nil message).mp h)
      have hlen : (0 : Int) < ((toUtf8 message).length : Int) := by
        have := List.length_pos.mpr hb
        omega
      simp [hne, WebSocketQt.textMessageReceived, QByteArray.size, hlen, WebSocketQt.call]
  · rw [List.length_eq_zero]
    exact toUtf8_eq_nil message
  · rw [cstr_data_toUtf8]
    exact toUtf8_takeWhile_eq_nil message

/-! ## TLS configuration assembly -/

theorem assembleConfig_eq (qt : Qt Cert Key) (dataSource : SSLDataSource) :
    assembleConfig qt dataSource
      = { localCertificate := loadCertificate qt dataSource.clientLocalCertificateFilePath,
          privateKey := loadPrivateKey qt dataSource.clientPrivateKeyFilePath
            dataSource.clientPrivateKeyPassPhrase,
          caCertificates := qt.defaultCaCertificates
            ++ (loadCertificate qt dataSource.clientCACertificateFilePath).toList } := by
  unfold assembleConfig loadCertificate loadPrivateKey QSslConfiguration.default
  cases h1 : qt.readFile (WebSocketQt.toString qt dataSource.clientLocalCertificateFilePath) with
  | none =>
    cases h2 : qt.readFile (WebSocketQt.toString qt dataSource.clientPrivateKeyFilePath) with
    | none =>
      cases h3 : qt.readFile (WebSocketQt.toString qt dataSource.clientCACertificateFilePath) with
      | none => simp
      | some b3 => cases h6 : qt.newCertificate b3 <;> simp [h6]
    | some b2 =>
      cases h3 : qt.readFile (WebSocketQt.toString qt dataSource.clientCACertificateFilePath) with
      | none => simp only [Option.bind]; split <;> simp_all
      | some b3 =>
        cases h6 : qt.newCertificate b3 <;> simp only [Option.bind, h6] <;> split <;> simp_all
  | some b1 =>
    cases h4 : qt.newCertificate b1 <;>
    cases h2 : qt.readFile (WebSocketQt.toString qt dataSource.clientPrivateKeyFilePath) with
    | none =>
      cases h3 : qt.readFile (WebSocketQt.toString qt dataSource.clientCACertificateFilePath) with
      | none => simp [h4]
      | some b3 => cases h6 : qt.newCertificate b3 <;> simp [h4, h6]
    | some b2 =>
      cases h3 : qt.readFile (WebSocketQt.toString qt dataSource.clientCACertificateFilePath) with
      | none => simp only [Option.bind, h4]; split <;> simp_all
      | some b3 =>
        cases h6 : qt.newCertificate b3 <;> simp only [Option.bind, h4, h6] <;> split <;> simp_all

/-- C5, as stated, fails: a connection that trusts certificate 1 after a first
call (CA file `a`) trusts only certificate 2 after a second call (CA file
`b`); certificate 1 has been removed, and the set is not the previous one
with the new certificate appended. -/
theorem setup_ca_not_additive_counterexample :
    (((sampleTransport []).setupSocketWithSSLDataSource qtSample
        (sampleSource 97)).socket.sslConfiguration.caCertificates = [1])
      ∧ ((((sampleTransport []).setupSocketWithSSLDataSource qtSample
            (sampleSource 97)).setupSocketWithSSLDataSource qtSample
            (sampleSource 98)).socket.sslConfiguration.caCertificates = [2])
      ∧ ((((sampleTransport []).setupSocketWithSSLDataSource qtSample
            (sampleSource 97)).setupSocketWithSSLDataSource qtSample
            (sampleSource 98)).socket.sslConfiguration.caCertificates
          ≠ ((sampleTransport []).setupSocketWithSSLDataSource qtSample
              (sampleSource 97)).socket.sslConfiguration.caCertificates ++ [2]) := by
  decide

/-- C5 (amended): when the CA-certificate file is readable and parses to a
valid certificate, the trusted CA set of the underlying connection after
`setupSocketWithSSLDataSource` is the CA set of a default-constructed
configuration with the new certificate appended, whatever the connection
trusted before the call: the configuration is assembled afresh and replaces
the previous one. -/
theorem setup_ca_appended_to_default (qt : Qt Cert Key) (t : WebSocketQt Cert Key)
    (dataSource : SSLDataSource) (bytes : QByteArray) (cert : Cert)
    (hopen : qt.readFile (WebSocketQt.toString qt dataSource.clientCACertificateFilePath)
      = some bytes)
    (hcert : qt.newCertificate bytes = some cert) :
    (t.setupSocketWithSSLDataSource qt dataSource).socket.sslConfiguration.caCertificates
      = qt.defaultCaCertificates ++ [cert] := by
  simp [WebSocketQt.setupSocketWithSSLDataSource, WebSocketQt.setSslConfiguration,
    assembleConfig_eq, loadCertificate, hopen, hcert]

/-- Witness for C5 (amended): the CA file `a` of the sample environment. -/
theorem setup_ca_appended_to_default_witness :
    ((sampleTransport []).setupSocketWithSSLDataSource qtSample
        (sampleSource 97)).socket.sslConfiguration.caCertificates
      = qtSample.defaultCaCertificates ++ [1] :=
  setup_ca_appended_to_default qtSample (sampleTransport []) (sampleSource 97) [1] 1
    (by decide) (by decide)

/-- C6: in the configuration assembled by `setupSocketWithSSLDataSource` the
local certificate is the one loaded from the local-certificate path (set iff
that file opens and parses to a non-null certificate), the private key is the
one loaded from the key path with the passphrase (set iff that file opens and
parses as RSA/PEM to a non-null key), and the CA list is the default list
followed by the certificate loaded from the CA path (added iff that file opens
and parses to a non-null certificate).  Each field is a function of its own
item only, and the single call made is `setSslConfiguration`, so no `onError`
is raised. -/
theorem setup_items_independent (qt : Qt Cert Key) (t : WebSocketQt Cert Key)
    (dataSource : SSLDataSource) :
    assembleConfig qt dataSource
        = { localCertificate := loadCertificate qt dataSource.clientLocalCertificateFilePath,
            privateKey := loadPrivateKey qt dataSource.clientPrivateKeyFilePath
              dataSource.clientPrivateKeyPassPhrase,
            caCertificates := qt.defaultCaCertificates
              ++ (loadCertificate qt dataSource.clientCACertificateFilePath).toList }
      ∧ ((assembleConfig qt dataSource).localCertificate.isSome = true
          ↔ ∃ bytes cert,
              qt.readFile (WebSocketQt.toString qt dataSource.clientLocalCertificateFilePath)
                = some bytes
              ∧ qt.newCertificate bytes = some cert)
      ∧ ((assembleConfig qt dataSource).privateKey.isSome = true
          ↔ ∃ bytes key,
              qt.readFile (WebSocketQt.toString qt dataSource.clientPrivateKeyFilePath)
                = some bytes
              ∧ qt.newKey bytes KeyAlgorithm.Rsa EncodingFormat.Pem KeyType.PrivateKey
                  (toUtf8 (WebSocketQt.toString qt dataSource.clientPrivateKeyPassPhrase))
                = some key)
      ∧ ((assembleConfig qt dataSource).caCertificates ≠ qt.defaultCaCertificates
          ↔ ∃ bytes cert,
              qt.readFile (WebSocketQt.toString qt dataSource.clientCACertificateFilePath)
                = some bytes
              ∧ qt.newCertificate bytes = some cert)
      ∧ (t.setupSocketWithSSLDataSource qt dataSource).trace
          = t.trace ++ [Action.setSslConfiguration (assembleConfig qt dataSource)]
      ∧ (t.setupSocketWithSSLDataSource qt dataSource).trace.filter Action.isSinkCall
          = t.trace.filter Action.isSinkCall := by
  refine ⟨assembleConfig_eq qt dataSource, ?_, ?_, ?_, rfl, ?_⟩
  · rw [assembleConfig_eq]
    simp only [loadCertificate, Option.isSome_iff_exists, Option.bind_eq_some]
    constructor
    · rintro ⟨cert, bytes, h1, h2⟩
      exact ⟨bytes, cert, h1, h2⟩
    · rintro ⟨bytes, cert, h1, h2⟩
      exact ⟨cert, bytes, h1, h2⟩
  · rw [assembleConfig_eq]
    simp only [loadPrivateKey, Option.isSome_iff_exists, Option.bind_eq_some]
    constructor
    · rintro ⟨key, bytes, h1, h2⟩
      exact ⟨bytes, key, h1, h2⟩
    · rintro ⟨bytes, key, h1, h2⟩
      exact ⟨key, bytes, h1, h2⟩
  · rw [assembleConfig_eq]
    simp only [loadCertificate]
    constructor
    · intro h
      cases h1 : qt.readFile (WebSocketQt.toString qt dataSource.clientCACertificateFilePath) with
      | none => simp [h1] at h
      | some bytes =>
        cases h2 : qt.newCertificate bytes with
        | none => simp [h1, h2] at h
        | some cert => exact ⟨bytes, cert, rfl, h2⟩
    · rintro ⟨bytes, cert, h1, h2⟩
      simp [h1, h2]
  · simp [WebSocketQt.setupSocketWithSSLDataSource, WebSocketQt.setSslConfiguration,
      WebSocketQt.call, Action.isSinkCall]

/-- C7: `connectToServer` appends to the calls made so far, when a credential
source is attached, exactly one `setSslConfiguration` (with the assembled
configuration) followed by exactly one `open` of the configured URL, and,
when none is attached, the `open` alone; the `open` is the last call in both
cases, whatever the credential files contain. -/
theorem connectToServer_sequence (qt : Qt Cert Key) (t : WebSocketQt Cert Key) :
    (t.connectToServer qt).trace
        = t.trace
          ++ (match t.sslDataSource with
              | some dataSource => [Action.setSslConfiguration (assembleConfig qt dataSource)]
              | none => [])
          ++ [Action.open_ (QString.ofCStr qt (some t.url.UTF8String))]
      ∧ (t.connectToServer qt).trace.getLast?
          = some (Action.open_ (QString.ofCStr qt (some t.url.UTF8String))) := by
  unfold WebSocketQt.connectToServer
  cases h : t.sslDataSource with
  | none => simp [WebSocketQt.call]
  | some dataSource =>
    simp [WebSocketQt.call, WebSocketQt.setupSocketWithSSLDataSource,
      WebSocketQt.setSslConfiguration]

/-! ## Construction, destruction and signal delivery -/

theorem call_socket (t : WebSocketQt Cert Key) (a : Action Cert Key) :
    (t.call a).socket = t.socket := rfl

theorem disconnectSignals_connections (t : WebSocketQt Cert Key) :
    t.disconnectSignals.socket.connections = [] := by
  simp only [WebSocketQt.disconnectSignals, WebSocketQt.disconnectSignal, List.filter_filter,
    List.filter_eq_nil_iff]
  intro c _
  cases c <;> decide

theorem disconnectSignals_trace (t : WebSocketQt Cert Key) :
    t.disconnectSignals.trace
      = t.trace ++ [Action.disconnect Signal.connected, Action.disconnect Signal.disconnected,
          Action.disconnect Signal.textMessageReceived,
          Action.disconnect Signal.binaryMessageReceived, Action.disconnect Signal.error] := by
  simp [WebSocketQt.disconnectSignals, WebSocketQt.disconnectSignal, WebSocketQt.call]

theorem emit_of_no_connections (t : WebSocketQt Cert Key) (e : SocketEvent)
    (h : t.socket.connections = []) : t.emit e = t := by
  simp [WebSocketQt.emit, h]

theorem emitAll_of_no_connections (t : WebSocketQt Cert Key) (es : List SocketEvent)
    (h : t.socket.connections = []) : t.emitAll es = t := by
  induction es with
  | nil => rfl
  | cons e es ih =>
    simp only [WebSocketQt.emitAll, List.foldl_cons] at ih ⊢
    rw [emit_of_no_connections t e h]
    exact ih

/-- C8: from every state the destructor issues, in this order, the `disconnect`
of the five signals that the constructor connected (connected, disconnected,
text received, binary received, error), then `close`, then a single `delete`.
Once the five `disconnect` calls are done no connection is left, so whatever
the underlying connection emits before the `close`, between `close` and
`delete`, or afterwards reaches no slot: the calls made are those seven and
none is a sink callback. -/
theorem destructor_order (t : WebSocketQt Cert Key) (url : REString)
    (source : Option SSLDataSource) (time : Nat) (config : QSslConfiguration Cert Key)
    (es1 es2 es3 : List SocketEvent) :
    t.destructor.trace
        = t.trace ++ [Action.disconnect Signal.connected, Action.disconnect Signal.disconnected,
            Action.disconnect Signal.textMessageReceived,
            Action.disconnect Signal.binaryMessageReceived, Action.disconnect Signal.error,
            Action.close, Action.delete]
      ∧ (WebSocketQt.new url source time config).trace
        = [Action.connect Signal.connected, Action.connect Signal.disconnected,
            Action.connect Signal.textMessageReceived,
            Action.connect Signal.binaryMessageReceived, Action.connect Signal.error]
      ∧ (WebSocketQt.new url source time config).socket.connections
        = [Signal.connected, Signal.disconnected, Signal.textMessageReceived,
            Signal.binaryMessageReceived, Signal.error]
      ∧ t.disconnectSignals.socket.connections = []
      ∧ t.destructor.socket.connections = []
      ∧ (((((t.disconnectSignals.emitAll es1).call Action.close).emitAll es2).call
            Action.delete).emitAll es3) = t.destructor
      ∧ (t.destructor.trace.drop t.trace.length).filter Action.isSinkCall = [] := by
  have hconn := disconnectSignals_connections t
  have htrace : t.destructor.trace
      = t.trace ++ [Action.disconnect Signal.connected, Action.disconnect Signal.disconnected,
          Action.disconnect Signal.textMessageReceived,
          Action.disconnect Signal.binaryMessageReceived, Action.disconnect Signal.error,
          Action.close, Action.delete] := by
    simp [WebSocketQt.destructor, WebSocketQt.call, disconnectSignals_trace]
  refine ⟨htrace, ?_, ?_, hconn, ?_, ?_, ?_⟩
  · simp [WebSocketQt.new, WebSocketQt.connectSignal, WebSocketQt.call]
  · simp [WebSocketQt.new, WebSocketQt.connectSignal, WebSocketQt.call]
  · simp only [WebSocketQt.destructor, call_socket, hconn]
  · rw [emitAll_of_no_connections _ es1 hconn]
    rw [emitAll_of_no_connections _ es2 (by rw [call_socket, hconn])]
    rw [emitAll_of_no_connections _ es3 (by rw [call_socket, call_socket, hconn])]
    rfl
  · rw [htrace]
    simp [Action.isSinkCall]

/-! ## Outbound sends and lifecycle bridging -/

/-- C9: `sendText` and `sendData` each make exactly two calls, for every
payload (the empty text and a zero-length buffer included): first
`updateLastSendTime`, then the hand-over of the payload to the underlying
connection (`sendTextMessage`, `sendBinaryMessage`), with no test on the
payload length.  The last-send timestamp afterwards is the clock reading of
the call, so when that reading is not below the stored timestamp (the clock
is non-decreasing) the timestamp does not decrease. -/
theorem send_updates_last_send_time (qt : Qt Cert Key) (t : WebSocketQt Cert Key) (now : Nat)
    (text : Option CharPtr) (textSize : Nat) (data : Option CharPtr) (dataSize : Nat) :
    (t.sendText qt now text textSize).trace
        = t.trace ++ [Action.updateLastSendTime,
            Action.sendTextMessage (QString.ofCStr qt text)]
      ∧ (t.sendData now data dataSize).trace
        = t.trace ++ [Action.updateLastSendTime,
            Action.sendBinaryMessage (QByteArray.ofRaw data (toInt dataSize))]
      ∧ (t.sendText qt now text textSize).lastSendTime = now
      ∧ (t.sendData now data dataSize).lastSendTime = now
      ∧ (t.lastSendTime ≤ now →
          t.lastSendTime ≤ (t.sendText qt now text textSize).lastSendTime
            ∧ t.lastSendTime ≤ (t.sendData now data dataSize).lastSendTime) := by
  refine ⟨?_, ?_, rfl, rfl, fun hclock => ⟨hclock, hclock⟩⟩
  · simp [WebSocketQt.sendText, WebSocketQt.updateLastSendTime, WebSocketQt.call]
  · simp [WebSocketQt.sendData, WebSocketQt.updateLastSendTime, WebSocketQt.call]

/-- Witness for C9: the empty text and a zero-length buffer, sent at clock
reading 9 by a transport whose last send was at 5; both are handed to the
underlying connection and the timestamp moves from 5 to 9. -/
theorem send_updates_last_send_time_witness :
    ((sampleTransport []).sendText qtSample 9 (some [0]) 0).trace
        = [Action.updateLastSendTime, Action.sendTextMessage []]
      ∧ ((sampleTransport []).sendData 9 (some [0]) 0).trace
        = [Action.updateLastSendTime, Action.sendBinaryMessage []]
      ∧ (sampleTransport []).lastSendTime = 5
      ∧ ((sampleTransport []).sendText qtSample 9 (some [0]) 0).lastSendTime = 9
      ∧ (sampleTransport []).lastSendTime
          ≤ ((sampleTransport []).sendText qtSample 9 (some [0]) 0).lastSendTime
      ∧ (sampleTransport []).lastSendTime
          ≤ ((sampleTransport []).sendData 9 (some [0]) 0).lastSendTime :=
  have h := send_updates_last_send_time qtSample (sampleTransport []) 9 (some [0]) 0 (some [0]) 0
  ⟨h.1, h.2.1, rfl, h.2.2.1, (h.2.2.2.2 (by decide)).1, (h.2.2.2.2 (by decide)).2⟩

theorem lifecycle_trace (t : WebSocketQt Cert Key) (c : Lifecycle × QString) :
    (t.lifecycle c).trace = t.trace ++ [c.1.sinkCall] := by
  obtain ⟨k, err⟩ := c
  cases k <;> rfl

/-- C10: for every finite sequence of underlying connected and disconnected
callbacks, each raised under an arbitrary error string of the underlying
connection, the calls made are exactly one `onConnected` per connected and one
`onDisconnected` per disconnected, in the same order, and nothing else (no
`onError`, whatever the error string); on a freshly constructed transport
every emitted signal runs its slot exactly once; `disconnectFromServer` makes
the single call `close` and no sink call. -/
theorem lifecycle_bridging (t : WebSocketQt Cert Key) (cs : List (Lifecycle × QString))
    (url : REString) (source : Option SSLDataSource) (time : Nat)
    (config : QSslConfiguration Cert Key) (e : SocketEvent) :
    (cs.foldl WebSocketQt.lifecycle t).trace = t.trace ++ cs.map (fun c => c.1.sinkCall)
      ∧ (WebSocketQt.new url source time config).emit e
          = (WebSocketQt.new url source time config).slot e
      ∧ t.disconnectFromServer.trace = t.trace ++ [Action.close]
      ∧ t.disconnectFromServer.trace.filter Action.isSinkCall
          = t.trace.filter Action.isSinkCall := by
  refine ⟨?_, ?_, rfl, ?_⟩
  · induction cs generalizing t with
    | nil => simp
    | cons c cs ih =>
      simp only [List.foldl_cons, List.map_cons]
      rw [ih (t.lifecycle c), lifecycle_trace]
      simp
  · cases e <;> rfl
  · simp [WebSocketQt.disconnectFromServer, WebSocketQt.call, Action.isSinkCall]

end FayeCpp
